import Mathlib

/-!
Verification of `src/desktop_clock.py` (DesktopClock widget).

The Python program is a single class `DesktopClock` built on a GUI event
loop.  We shallowly embed its pure computations (tick scheduling
arithmetic, time-string formatting, geometry arithmetic) as Lean
functions, and its event handlers (`_on_start_move`, `_on_move`, the
right-click binding, `_update_time`, `_schedule_next_tick`) as explicit
state-transition functions on a `WidgetState` record.  Machine integers
are modelled as `Nat`/`Int`; Python's `int(x / d)` on the non-negative
ranges that occur here coincides with floor division, which is noted at
each use site.
-/

namespace DesktopClock

/-! ### Tick scheduling (`_schedule_next_tick`, lines 103-108)

    now_ns = time.perf_counter_ns()
    interval_ns = int(UPDATE_INTERVAL_MS * 1_000_000)
    next_tick_ns = ((now_ns // interval_ns) + 1) * interval_ns
    delay_ms = max(1, int((next_tick_ns - now_ns) / 1_000_000))
-/

/-- Source line 25: `UPDATE_INTERVAL_MS = 16`. -/
def UPDATE_INTERVAL_MS : Nat := 16

/-- Source line 105: `interval_ns = int(UPDATE_INTERVAL_MS * 1_000_000)`. -/
def interval_ns : Nat := UPDATE_INTERVAL_MS * 1000000

/-- Source line 106: `next_tick_ns = ((now_ns // interval_ns) + 1) * interval_ns`. -/
def next_tick_ns (now_ns : Nat) : Nat :=
  ((now_ns / interval_ns) + 1) * interval_ns

/-- Source line 107: `delay_ms = max(1, int((next_tick_ns - now_ns) / 1_000_000))`.
`next_tick_ns - now_ns` lies in `(0, 16_000_000]`, where Python's float
division by `1_000_000` followed by `int` truncation coincides with
floor division, so we embed it as `Nat` division. -/
def delay_ms (now_ns : Nat) : Nat :=
  max 1 ((next_tick_ns now_ns - now_ns) / 1000000)

/-- The spec's scheduling formula, for comparison with the code's
`next_tick_ns`: "next_tick = ceil(now / interval) * interval".
`Nat`-ceiling of `now / interval` is `(now + interval - 1) / interval`. -/
def next_tick_ceil_spec (now_ns : Nat) : Nat :=
  ((now_ns + interval_ns - 1) / interval_ns) * interval_ns

/-! ### Claims C1 and C2 -/

/-- C1: for every non-negative monotonic timestamp `t` (nanoseconds) and
the fixed interval `I = 16 ms = 16_000_000 ns`, the next tick computed by
`_schedule_next_tick` satisfies `next_tick % I = 0`, `next_tick > t`
and `next_tick - t ≤ I`. -/
theorem c1_tick_alignment (t : Nat) :
    next_tick_ns t % interval_ns = 0 ∧
    next_tick_ns t > t ∧
    next_tick_ns t - t ≤ interval_ns := by
  simp only [next_tick_ns, interval_ns, UPDATE_INTERVAL_MS]
  omega

/-- C2 counterexample: the claim says the code computes
`next_tick = ceil(now / interval) * interval` for every `now`, but at
`now = 0` (an exact multiple of the interval) the code yields
`16_000_000` while the ceiling formula yields `0`. -/
theorem c2_ceil_counterexample : next_tick_ns 0 ≠ next_tick_ceil_spec 0 := by
  decide

/-- C2 amended: whenever `now` is not an exact multiple of the interval,
the code's `next_tick` agrees with the spec's ceiling formula (at exact
multiples the code instead yields `now + interval`), and the delay
handed to the timer primitive is `max(1, (next_tick - now) // 10^6)`
milliseconds. -/
theorem c2_schedule_amended (now : Nat) (h : ¬ interval_ns ∣ now) :
    next_tick_ns now = next_tick_ceil_spec now ∧
    delay_ms now = max 1 ((next_tick_ns now - now) / 1000000) := by
  refine ⟨?_, rfl⟩
  simp only [next_tick_ns, next_tick_ceil_spec, interval_ns, UPDATE_INTERVAL_MS] at *
  omega

/-- C2 amended, witnessed at the concrete timestamp `now = 5`. -/
theorem c2_schedule_amended_witness :
    ¬ interval_ns ∣ 5 ∧
    (next_tick_ns 5 = next_tick_ceil_spec 5 ∧
     delay_ms 5 = max 1 ((next_tick_ns 5 - 5) / 1000000)) :=
  ⟨by decide, c2_schedule_amended 5 (by decide)⟩

/-! ### Time-string formatting (`_update_time`, lines 97-100)

    self.hhmmss.config(text=now.strftime("%H:%M:%S"))
    self.mmm.config(text=f"{int(now.microsecond/1000):03d}")
-/

/-- Python's `f"{n:03d}"` for a non-negative integer: the decimal digits
of `n`, left-padded with `'0'` to a minimum width of 3. -/
def format03d (n : Nat) : String :=
  let s := Nat.repr n
  if s.length < 3 then String.mk (List.replicate (3 - s.length) '0') ++ s else s

/-- Python's `f"{n:02d}"`, used to model the 2-digit fields of
`strftime("%H:%M:%S")`. -/
def format02d (n : Nat) : String :=
  let s := Nat.repr n
  if s.length < 2 then String.mk (List.replicate (2 - s.length) '0') ++ s else s

/-- A wall-clock reading, the fields of `datetime.now()` used by
`_update_time`. -/
structure WallTime where
  hour : Nat
  minute : Nat
  second : Nat
  microsecond : Nat
deriving DecidableEq

/-- Source line 99: the text `now.strftime("%H:%M:%S")`. -/
def strftime_HMS (t : WallTime) : String :=
  format02d t.hour ++ ":" ++ format02d t.minute ++ ":" ++ format02d t.second

/-- The millisecond label text `f"{int(now.microsecond/1000):03d}"`
(line 100).  For `microsecond ∈ [0, 999999]`, Python's
`int(microsecond / 1000)` (float division, truncation) coincides with
floor division by 1000, so we embed it as `Nat` division. -/
def mmm_text (microsecond : Nat) : String :=
  format03d (microsecond / 1000)

set_option maxRecDepth 4096 in
/-- Helper for C3: `f"{m:03d}"` is exactly 3 characters for every
`m < 1000`. -/
theorem format03d_length_of_lt (m : Nat) (hm : m < 1000) :
    (format03d m).length = 3 := by
  revert hm
  revert m
  decide

/-! ### Claim C3 -/

/-- C3: for every sub-second microsecond value in `[0, 999999]`, the
displayed millisecond field is the integer division of that value by
1000 zero-padded to 3 digits; `999500` renders as `"999"`, `0` renders
as `"000"`, and the field is always exactly 3 characters. -/
theorem c3_millisecond_format (μ : Nat) (h : μ ≤ 999999) :
    mmm_text μ = format03d (μ / 1000) ∧
    (mmm_text μ).length = 3 ∧
    mmm_text 999500 = "999" ∧
    mmm_text 0 = "000" := by
  refine ⟨rfl, ?_, by decide, by decide⟩
  exact format03d_length_of_lt (μ / 1000) (by omega)

/-- C3, witnessed at the concrete microsecond value `999500`. -/
theorem c3_millisecond_format_witness :
    999500 ≤ 999999 ∧
    (mmm_text 999500 = format03d (999500 / 1000) ∧
     (mmm_text 999500).length = 3 ∧
     mmm_text 999500 = "999" ∧
     mmm_text 0 = "000") :=
  ⟨by decide, c3_millisecond_format 999500 (by decide)⟩

/-! ### Widget state and event handlers

The mutable state of `DesktopClock`: window position (`geometry(f"+x+y")`),
window size (`geometry(f"{w}x{h}+..+..")`, set once in `__init__`), the
drag anchor `self._drag_data`, the two time label texts, a destroyed
flag (`root.destroy()`), and the pending timer delay registered with
`root.after` (lines 54-95, 97-108).
-/

/-- Source line 68: the dictionary `self._drag_data` with integer entries
x and y, the press-point to window-corner offset recorded at drag
start. -/
structure DragData where
  x : Int
  y : Int
deriving DecidableEq

/-- The state of the `DesktopClock` widget. -/
structure WidgetState where
  winX : Int
  winY : Int
  winW : Nat
  winH : Nat
  hhmmssText : String
  mmmText : String
  dragData : DragData
  destroyed : Bool
  pendingDelayMs : Option Nat
deriving DecidableEq

/-- Handler `_on_start_move` (lines 88-90): record the offset between the press
point in screen coordinates (`event.x_root`, `event.y_root`) and the
window's current top-left corner. -/
def on_start_move (s : WidgetState) (x_root y_root : Int) : WidgetState :=
  { s with dragData := ⟨x_root - s.winX, y_root - s.winY⟩ }

/-- Handler `_on_move` (lines 92-95): reposition the window's top-left to the
cursor position minus the recorded drag offset. -/
def on_move (s : WidgetState) (x_root y_root : Int) : WidgetState :=
  { s with winX := x_root - s.dragData.x, winY := y_root - s.dragData.y }

/-- The `<Button-3>` binding `lambda e: self.root.destroy()` (line 72),
bound on the root window and all three labels. -/
def on_right_click (s : WidgetState) : WidgetState :=
  { s with destroyed := true }

/-- Method `_schedule_next_tick` (lines 103-108) as a state transition:
`self.root.after(delay_ms, self._update_time)` registers the next tick. -/
def schedule_next_tick (s : WidgetState) (now_ns : Nat) : WidgetState :=
  { s with pendingDelayMs := some (delay_ms now_ns) }

/-- Method `_update_time` (lines 97-101): re-read the wall clock, update both
label texts, then immediately re-enter the scheduling step. -/
def update_time (s : WidgetState) (t : WallTime) (now_ns : Nat) : WidgetState :=
  schedule_next_tick
    { s with hhmmssText := strftime_HMS t, mmmText := mmm_text t.microsecond }
    now_ns

/-- An event dispatched by the toolkit's event loop. -/
inductive Event
  | press1 (x_root y_root : Int)
  | motion1 (x_root y_root : Int)
  | press3
  | timerFire (t : WallTime) (now_ns : Nat)
deriving DecidableEq

/-- One event-loop dispatch step.  Once the window is destroyed the
event loop returns and no further events are handled. -/
def dispatch (s : WidgetState) (e : Event) : WidgetState :=
  if s.destroyed then s
  else
    match e with
    | .press1 x y => on_start_move s x y
    | .motion1 x y => on_move s x y
    | .press3 => on_right_click s
    | .timerFire t now => update_time s t now

/-- The event loop processing a finite sequence of events in arrival
order. -/
def processEvents (s : WidgetState) (es : List Event) : WidgetState :=
  es.foldl dispatch s

/-! ### Startup geometry (`__init__`, lines 74-79)

    w = hhmmss.winfo_reqwidth() + dot.winfo_reqwidth() + mmm.winfo_reqwidth() + 30
    h = max(hhmmss.winfo_reqheight(), mmm.winfo_reqheight()) + 20
    sw = root.winfo_screenwidth()
    root.geometry(f"{w}x{h}+{sw - w - 40}+40")
-/

/-- The window geometry computed once at startup. -/
structure Layout where
  w : Nat
  h : Nat
  x : Int
  y : Int
deriving DecidableEq

/-- Geometry computation of `__init__` (lines 76-79) from the rendered
widths of the three labels, the heights of the first and third label,
and the screen width. -/
def init_geometry (w1 w2 w3 h1 h3 sw : Nat) : Layout :=
  let w := w1 + w2 + w3 + 30
  let h := max h1 h3 + 20
  { w := w, h := h, x := (sw : Int) - (w : Int) - 40, y := 40 }

/-! ### Claims C4, C5, C6, C7, C9 -/

/-- Helper: `_on_move` never touches the drag anchor, so any run of
motion events preserves the offset recorded at drag start. -/
theorem dragData_foldl_on_move (moves : List (Int × Int)) :
    ∀ s : WidgetState,
      (moves.foldl (fun s m => on_move s m.1 m.2) s).dragData = s.dragData := by
  induction moves with
  | nil => intro s; rfl
  | cons m ms ih => intro s; simpa [on_move] using ih (on_move s m.1 m.2)

/-- C4: after a primary-button press at screen point `(px, py)` with the
window at `(s₀.winX, s₀.winY)` records the offset
`(dx, dy) = (px - s₀.winX, py - s₀.winY)`, every subsequent motion event
with cursor `(cx, cy)` — regardless of how many motion events preceded
it — repositions the window's top-left to exactly `(cx - dx, cy - dy)`. -/
theorem c4_drag_invariant (s₀ : WidgetState) (px py : Int)
    (moves : List (Int × Int)) (cx cy : Int) :
    (on_move ((moves.foldl (fun s m => on_move s m.1 m.2))
        (on_start_move s₀ px py)) cx cy).winX = cx - (px - s₀.winX) ∧
    (on_move ((moves.foldl (fun s m => on_move s m.1 m.2))
        (on_start_move s₀ px py)) cx cy).winY = cy - (py - s₀.winY) := by
  have h := dragData_foldl_on_move moves (on_start_move s₀ px py)
  simp only [on_move, on_start_move] at h ⊢
  rw [h]
  exact ⟨rfl, rfl⟩

/-- C5: startup sets the window width to `w1 + w2 + w3 + 30`, the height
to `max h1 h3 + 20`, and places the window at horizontal offset
`screen_width - width - 40` and vertical offset `40` from the screen's
top-left origin. -/
theorem c5_startup_layout (w1 w2 w3 h1 h3 sw : Nat) :
    (init_geometry w1 w2 w3 h1 h3 sw).w = w1 + w2 + w3 + 30 ∧
    (init_geometry w1 w2 w3 h1 h3 sw).h = max h1 h3 + 20 ∧
    (init_geometry w1 w2 w3 h1 h3 sw).x =
      (sw : Int) - ((w1 + w2 + w3 + 30 : Nat) : Int) - 40 ∧
    (init_geometry w1 w2 w3 h1 h3 sw).y = 40 := by
  refine ⟨rfl, rfl, ?_, rfl⟩
  simp [init_geometry]

/-- C6: a right-click in every state — idle or mid-drag — destroys the
window: the destroyed flag is set, the window position is left where it
was (the drag is not completed), and no subsequent event of any kind is
processed afterwards. -/
theorem c6_right_click_exits (s : WidgetState) (es : List Event) :
    (on_right_click s).destroyed = true ∧
    (on_right_click s).winX = s.winX ∧
    (on_right_click s).winY = s.winY ∧
    processEvents (on_right_click s) es = on_right_click s := by
  refine ⟨rfl, rfl, rfl, ?_⟩
  induction es with
  | nil => rfl
  | cons e es ih =>
      simpa [processEvents, dispatch, on_right_click] using ih

/-- C7: the tick loop never terminates on its own — every execution of
`_update_time` ends by scheduling another tick, so after any tick has
run (followed by any number of further ticks) there is always a pending
scheduled tick. -/
theorem c7_self_rescheduling (s₀ : WidgetState) (t : WallTime) (now : Nat)
    (fires : List (WallTime × Nat)) :
    (update_time s₀ t now).pendingDelayMs = some (delay_ms now) ∧
    ((fires.foldl (fun s f => update_time s f.1 f.2)
        (update_time s₀ t now)).pendingDelayMs).isSome = true := by
  refine ⟨rfl, ?_⟩
  induction fires generalizing s₀ t now with
  | nil => rfl
  | cons f fs ih => exact ih (update_time s₀ t now) f.1 f.2

/-- C9: the window size is unchanged by every subsequent operation — the
drag motion handler changes only the window position (size, texts and
drag anchor untouched), and the tick handler changes only the two label
texts and the pending tick (size and position untouched). -/
theorem c9_size_immutable (s : WidgetState) (cx cy : Int) (t : WallTime)
    (now : Nat) :
    (on_move s cx cy).winW = s.winW ∧
    (on_move s cx cy).winH = s.winH ∧
    (on_move s cx cy).hhmmssText = s.hhmmssText ∧
    (on_move s cx cy).mmmText = s.mmmText ∧
    (update_time s t now).winW = s.winW ∧
    (update_time s t now).winH = s.winH ∧
    (update_time s t now).winX = s.winX ∧
    (update_time s t now).winY = s.winY := by
  refine ⟨rfl, rfl, rfl, rfl, rfl, rfl, rfl, rfl⟩

/-! ### Startup platform calls (`__init__` lines 34-52, 81-83, and
`_make_macos_floating` lines 110-118)

Three fallible platform calls are made during initialization, each
wrapped in its own `try`/`except`:
  (a) `self.root.attributes("-topmost", True)` — `except: pass`;
  (c) `tkfont.Font(family="JetBrains Mono", ...)` — `except:` fall back
      to `family="Courier"`;
  (b) on `sys.platform == "darwin"` only, `_make_macos_floating` sets
      `NSFloatingWindowLevel` and prints a diagnostic on success or
      failure.
Whether each call raises is decided by the host platform; we model the
host as an environment of Booleans and `__init__` as a function of it.
-/

/-- The host environment: which of the three platform calls fail, and
whether `sys.platform == "darwin"`. -/
structure InitEnv where
  topmostFails : Bool
  fontFails : Bool
  floatingFails : Bool
  isDarwin : Bool
deriving DecidableEq

/-- The observable outcome of `__init__`: whether it ran to completion,
how many times each fallible platform call was attempted, the resulting
always-on-top attribute and font family, and the diagnostics printed. -/
structure InitOutcome where
  completed : Bool
  topmostAttempts : Nat
  topmostSet : Bool
  fontAttempts : Nat
  fontFamily : String
  floatingAttempts : Nat
  printed : List String
deriving DecidableEq

/-- The success diagnostic of `_make_macos_floating` (line 116). -/
def macosFloatOkMsg : String :=
  "macOS: Clock window elevated to floating level (NSFloatingWindowLevel)"

/-- The failure diagnostic of `_make_macos_floating` (line 118). -/
def macosFloatFailMsg : String :=
  "macOS: Failed to set floating level:"

/-- Method `_make_macos_floating` (lines 110-118): one attempt; on success
print the success diagnostic, on any exception print the failure
diagnostic; either way return (non-fatal). -/
def make_macos_floating (fails : Bool) : Nat × List String :=
  if fails then (1, [macosFloatFailMsg]) else (1, [macosFloatOkMsg])

/-- The platform-call portion of `__init__` (lines 34-52 and 81-83):
each `try` site is attempted exactly once, in order; `__init__` always
runs to completion. -/
def init_calls (env : InitEnv) : InitOutcome :=
  let topmostSet := !env.topmostFails
  let fontFamily := if env.fontFails then "Courier" else "JetBrains Mono"
  let (fAtt, printed) :=
    if env.isDarwin then make_macos_floating env.floatingFails else (0, [])
  { completed := true
    topmostAttempts := 1
    topmostSet := topmostSet
    fontAttempts := 1
    fontFamily := fontFamily
    floatingAttempts := fAtt
    printed := printed }

/-! ### Claim C8 -/

/-- C8: each of the three platform-capability failures is non-fatal and
attempted exactly once at startup with no retry (the native floating
call is made exactly once when the platform is darwin and never
otherwise); failures (a) and (c) fall back silently — nothing is
printed no matter whether they fail — while the darwin floating call
prints exactly one diagnostic (failure or success); initialization runs
to completion in every environment. -/
theorem c8_nonfatal_once (env : InitEnv) :
    (init_calls env).completed = true ∧
    (init_calls env).topmostAttempts = 1 ∧
    (init_calls env).fontAttempts = 1 ∧
    (init_calls env).floatingAttempts = (if env.isDarwin then 1 else 0) ∧
    (init_calls env).topmostSet = !env.topmostFails ∧
    (init_calls env).fontFamily =
      (if env.fontFails then "Courier" else "JetBrains Mono") ∧
    (init_calls env).printed =
      (if env.isDarwin then
        [if env.floatingFails then macosFloatFailMsg else macosFloatOkMsg]
       else []) := by
  cases env with
  | mk a b c d => cases d <;> cases c <;> simp [init_calls, make_macos_floating]

/-! ### `run` (lines 120-124)

    def run(self):
        try:
            self.root.mainloop()
        except KeyboardInterrupt:
            pass
-/

/-- How the blocking `mainloop()` call ends: either it returns normally
(the window was destroyed) or a `KeyboardInterrupt` (SIGINT / Ctrl-C)
is raised out of it. -/
inductive MainloopOutcome
  | finished
  | keyboardInterrupt
deriving DecidableEq

/-- Method `run` (lines 120-124): the `KeyboardInterrupt` escaping `mainloop`
is caught and swallowed, so `run` returns normally in both cases. -/
def run (o : MainloopOutcome) : Except String Unit :=
  match o with
  | .finished => .ok ()
  | .keyboardInterrupt => .ok ()

/-- The process exit status implied by how the top-level call returns:
a normal return is a clean (zero) exit, an unhandled exception a
non-zero one. -/
def exit_status (r : Except String Unit) : Nat :=
  match r with
  | .ok _ => 0
  | .error _ => 1

/-! ### Claim C10 -/

/-- C10: a `KeyboardInterrupt` raised while the event loop is running is
caught and swallowed by `run`, which returns normally, so external
interruption produces a clean (zero-status) process exit — the same
outcome as a normal mainloop return. -/
theorem c10_keyboard_interrupt_clean_exit :
    run MainloopOutcome.keyboardInterrupt = Except.ok () ∧
    exit_status (run MainloopOutcome.keyboardInterrupt) = 0 ∧
    run MainloopOutcome.keyboardInterrupt = run MainloopOutcome.finished := by
  exact ⟨rfl, rfl, rfl⟩

end DesktopClock
